import Mathlib

/-!
Verification of the identity-matching subsystem of the `face_acces` repository.

The development shallowly embeds the Python sources:
* `db/face_database.py` — the persisted identity gallery (`add_user`,
  `get_user_embedding`) over a SQLite table with `user_id` as primary key.
  The table is modelled as a list of rows `(user_id, name, embedding)`;
  floating-point vector components are idealised as rationals, and the JSON
  text serialisation (which round-trips Python floats exactly) is modelled as
  the identity on the stored vector.
* `utils/camera.py` — the `CameraCapture` lifecycle.  The external OpenCV
  handle is opaque, so the outcome of `cap.read()` / `cap.isOpened()` is an
  explicit oracle argument.
* `main.py` — `find_best_match`, the cosine-distance nearest-neighbour
  matcher, with real-number arithmetic for the square-root norms.
* `admin.py` — `register_new_user`, the enrollment workflow, with the
  external detector/extractor outcomes passed as arguments.
-/

namespace FaceAccess

/-! ### Identity store — `db/face_database.py` -/

/-- One row of the `users` table: `(user_id, name, embedding_json)`, with the
JSON-serialised float vector idealised as the list of rationals it denotes. -/
structure DB where
  rows : List (String × String × List ℚ)
deriving DecidableEq

/-- The error outcomes of `add_user`: `ValueError` for an empty embedding and
`sqlite3.IntegrityError` for a `user_id` primary-key collision. -/
inductive DBError
  | invalidVector
  | duplicateIdentity
deriving DecidableEq

/-- `add_user(db_path, user_id, name, embedding)` from `db/face_database.py`:
rejects an empty embedding with `ValueError` before any database connection is
opened; an `INSERT` whose `user_id` collides with the primary key raises
`sqlite3.IntegrityError` and leaves the table unchanged; otherwise the row is
inserted and committed. -/
def add_user (db : DB) (user_id name : String) (embedding : List ℚ) :
    Except DBError DB :=
  if embedding.length = 0 then Except.error DBError.invalidVector
  else if db.rows.any (fun r => r.1 == user_id) then
    Except.error DBError.duplicateIdentity
  else Except.ok ⟨db.rows ++ [(user_id, name, embedding)]⟩

/-- `get_user_embedding(db_path, user_id)` from `db/face_database.py`:
`SELECT embedding_json FROM users WHERE user_id = ?`, returning the
deserialised vector of the first matching row, or `None` when absent. -/
def get_user_embedding (db : DB) (user_id : String) : Option (List ℚ) :=
  (db.rows.find? (fun r => r.1 == user_id)).map (fun r => r.2.2)

/-! ### Camera lifecycle — `utils/camera.py` -/

/-- The observable state of a `CameraCapture` object: the `is_connected` flag
and the `cap` field (`None`, or an opaque open `cv2.VideoCapture` handle). -/
structure CameraCapture where
  is_connected : Bool
  cap : Option Unit
deriving DecidableEq

/-- The outcome of the external `cv2` calls made during one `read_frame`:
a successful `cap.read()` delivering a frame, a failed read together with the
value `cap.isOpened()` then reports, or an exception raised by the read. -/
inductive ReadOutcome
  | ok (frame : Nat)
  | fail (isOpenedNow : Bool)
  | exn

/-- `CameraCapture.connect` (called from `__init__`): on success the handle is
kept and `is_connected := true`; on an unopened handle or an exception the
handle is released and `is_connected := false`. -/
def connect (openedOk : Bool) : CameraCapture :=
  if openedOk then { is_connected := true, cap := some () }
  else { is_connected := false, cap := none }

/-- `CameraCapture.read_frame`: if `not self.is_connected or self.cap is None`
it returns `(False, None)` without touching the state; otherwise it calls
`cap.read()`.  On success it returns `(True, frame)`; on a failed read it sets
`self.is_connected = self.cap.isOpened()` and returns `(False, None)`; on an
exception it returns `(False, None)` leaving the state unchanged. -/
def read_frame (c : CameraCapture) (o : ReadOutcome) :
    (Bool × Option Nat) × CameraCapture :=
  if c.is_connected = false ∨ c.cap = none then ((false, none), c)
  else
    match o with
    | ReadOutcome.ok f => ((true, some f), c)
    | ReadOutcome.fail b => ((false, none), { c with is_connected := b })
    | ReadOutcome.exn => ((false, none), c)

/-- `CameraCapture.release`: if `self.cap` is set, the handle is released,
`cap := None` and `is_connected := false`; otherwise nothing happens. -/
def release (c : CameraCapture) : CameraCapture :=
  match c.cap with
  | some _ => { is_connected := false, cap := none }
  | none => c

/-- States of a `CameraCapture` reachable through its lifecycle: the handle is
only ever cleared together with the `is_connected` flag. -/
def CamInv (c : CameraCapture) : Prop :=
  c.cap = none → c.is_connected = false

instance : DecidablePred CamInv := fun c => by
  unfold CamInv; infer_instance

/-! ### Nearest-neighbour matcher — `find_best_match` in `main.py` -/

/-- `np.dot` on embedding vectors (componentwise product, summed). -/
def dot : List ℚ → List ℚ → ℚ
  | a :: as, b :: bs => a * b + dot as bs
  | _, _ => 0

/-- `np.linalg.norm`: the Euclidean norm, the square root of the vector's dot
product with itself. -/
noncomputable def norm (v : List ℚ) : ℝ :=
  Real.sqrt ((dot v v : ℚ) : ℝ)

/-- The cosine distance computed in the scan body of `find_best_match`:
`1 - dot_product / (norm_new * norm_db)`. -/
noncomputable def cosine_distance (a b : List ℚ) : ℝ :=
  1 - ((dot a b : ℚ) : ℝ) / (norm a * norm b)

/-- A generic `sqlite3.Error` raised while reading the gallery. -/
inductive SqlError
  | err
deriving DecidableEq

/-- The `for row in rows` loop of `find_best_match`, tracking
`(best_match_id, best_distance)`.  An absent accumulator models the initial
`best_distance = float('inf')` (every finite distance beats it).  A row whose
norm, or the probe's norm, is `0` is skipped; otherwise the accumulator is
replaced exactly when the row's cosine distance is strictly smaller. -/
noncomputable def scanRows (new_embedding : List ℚ) :
    List (String × List ℚ) → Option (String × ℝ) → Option (String × ℝ)
  | [], best => best
  | (user_id, emb) :: rest, best =>
    if norm new_embedding = 0 ∨ norm emb = 0 then
      scanRows new_embedding rest best
    else
      let d := cosine_distance new_embedding emb
      match best with
      | none => scanRows new_embedding rest (some (user_id, d))
      | some (bid, bd) =>
        if d < bd then scanRows new_embedding rest (some (user_id, d))
        else scanRows new_embedding rest (some (bid, bd))

/-- `find_best_match(new_embedding, db_path, threshold)` from `main.py`.
The result of the `SELECT user_id, embedding_json FROM users` query is passed
explicitly: `Except.error` models a `sqlite3.Error` raised during the read,
which the function catches, logs, and turns into the return value
`(None, None)`.  After the scan, the best candidate is returned only when
`best_match_id is not None and best_distance < threshold` (strict); otherwise
the function returns `(None, None)`. -/
noncomputable def find_best_match (new_embedding : List ℚ)
    (rows : Except SqlError (List (String × List ℚ))) (threshold : ℝ) :
    Option (String × ℝ) :=
  match rows with
  | Except.error _ => none
  | Except.ok rs =>
    match scanRows new_embedding rs none with
    | none => none
    | some (bid, bd) => if bd < threshold then some (bid, bd) else none

/-! ### The matcher as the specification words it — section 4.3 of the spec

"cosine distance between probe and each gallery vector; linear scan tracks the
minimum distance and its id; any gallery entry (or the probe) with zero norm
is skipped; the minimum-distance candidate is accepted as matched only if
`distance < threshold` (strict); tie-break: first one encountered in scan
order wins." -/

/-- The gallery entries that survive the zero-norm exclusion, paired with
their cosine distances to the probe, in scan order. -/
noncomputable def specCandidates (probe : List ℚ) :
    List (String × List ℚ) → List (String × ℝ)
  | [] => []
  | e :: rest =>
    if norm probe ≠ 0 ∧ norm e.2 ≠ 0 then
      (e.1, cosine_distance probe e.2) :: specCandidates probe rest
    else specCandidates probe rest

/-- The first entry attaining the minimum distance, in scan order: on an exact
tie the earlier entry wins. -/
noncomputable def firstMin : List (String × ℝ) → Option (String × ℝ)
  | [] => none
  | x :: rest =>
    match firstMin rest with
    | none => some x
    | some y => if x.2 ≤ y.2 then some x else some y

/-- `match(probe, gallery, threshold)` as specified: the scan-order-first
minimum-distance candidate among non-skipped entries, reported only when its
distance is strictly below the threshold. -/
noncomputable def specMatch (probe : List ℚ) (gallery : List (String × List ℚ))
    (threshold : ℝ) : Option (String × ℝ) :=
  match firstMin (specCandidates probe gallery) with
  | none => none
  | some (bid, bd) => if bd < threshold then some (bid, bd) else none

/-! ### Enrollment workflow — `register_new_user` in `admin.py` -/

/-- Python's `str.strip()` on the entered name: leading and trailing
whitespace removed. -/
def py_strip (s : String) : String :=
  ⟨((s.data.dropWhile Char.isWhitespace).reverse.dropWhile
      Char.isWhitespace).reverse⟩

/-- Python's `name.replace(" ", "_")`: the pattern is the single space
character, so every space is replaced by an underscore. -/
def py_replace_space_underscore (s : String) : String :=
  ⟨s.data.map (fun c => if c = ' ' then '_' else c)⟩

/-- Python's `str.lower()`, restricted to ASCII letters as in the names this
system handles. -/
def py_lower (s : String) : String :=
  ⟨s.data.map Char.toLower⟩

/-- `user_id = name.replace(" ", "_").lower()` from `admin.py` line 42: the
identity id derived deterministically from the (stripped) display name. -/
def derive_user_id (name : String) : String :=
  py_lower (py_replace_space_underscore name)

/-- The observable outcome of one run of `register_new_user`, one constructor
per console message / exit path of `admin.py`. -/
inductive RegOutcome
  | emptyName
  | cameraNotConnected
  | captureFailed
  | modelNotFound
  | noFaceDetected
  | ambiguousFaceCount
  | extractionFailed
  | registered (user_id : String)
  | duplicateIdentity
  | saveFailed
deriving DecidableEq

/-- `register_new_user()` from `admin.py`, for runs without an operator
interrupt.  The external collaborators are passed as arguments: whether the
camera connected, whether the confirmed capture returned a frame, whether the
YOLO model file was found, how many faces the detector reported on the frame,
and the extractor's result (`none` covers both a `None` return and an
exception).  The function returns the console outcome and the resulting
database state.  Detection with exactly one face leads to extraction; zero
faces or several faces leave the embedding unset, so after the camera is
released the final `if embedding is not None` branch reports an incomplete
registration and never touches the store. -/
def register_new_user (rawName : String) (connected readOk modelFound : Bool)
    (faces : Nat) (extraction : Option (List ℚ)) (db : DB) : RegOutcome × DB :=
  let name := py_strip rawName
  if name = "" then (RegOutcome.emptyName, db)
  else
    let user_id := derive_user_id name
    if connected = false then (RegOutcome.cameraNotConnected, db)
    else if readOk = false then (RegOutcome.captureFailed, db)
    else if modelFound = false then (RegOutcome.modelNotFound, db)
    else if faces = 1 then
      match extraction with
      | none => (RegOutcome.extractionFailed, db)
      | some embedding =>
        match add_user db user_id name embedding with
        | Except.ok db2 => (RegOutcome.registered user_id, db2)
        | Except.error DBError.duplicateIdentity =>
          (RegOutcome.duplicateIdentity, db)
        | Except.error DBError.invalidVector => (RegOutcome.saveFailed, db)
    else if faces = 0 then (RegOutcome.noFaceDetected, db)
    else (RegOutcome.ambiguousFaceCount, db)

/-! ### Store lemmas and claims C3–C5 -/

theorem add_user_ok {db : DB} {user_id name : String} {v : List ℚ} {db' : DB}
    (h : add_user db user_id name v = Except.ok db') :
    v ≠ [] ∧ db.rows.any (fun r => r.1 == user_id) = false ∧
      db' = ⟨db.rows ++ [(user_id, name, v)]⟩ := by
  unfold add_user at h
  split_ifs at h with h1 h2
  refine ⟨?_, Bool.eq_false_iff.mpr h2, ?_⟩
  · intro hv
    subst hv
    exact h1 rfl
  · exact (Except.ok.inj h).symm

theorem get_after_add {rows : List (String × String × List ℚ)}
    {user_id name : String} {v : List ℚ}
    (h : rows.any (fun r => r.1 == user_id) = false) :
    get_user_embedding ⟨rows ++ [(user_id, name, v)]⟩ user_id = some v := by
  unfold get_user_embedding
  have hfind : rows.find? (fun r => r.1 == user_id) = none := by
    rw [List.find?_eq_none]
    intro x hx
    have hall := List.any_eq_false.mp h
    simpa using hall x hx
  simp [List.find?_append, hfind, List.find?]

theorem add_user_second_same_id
    {db : DB} {user_id name : String} {v : List ℚ} {db' : DB}
    (name2 : String) {v2 : List ℚ} (hv2 : v2 ≠ [])
    (h : add_user db user_id name v = Except.ok db') :
    add_user db' user_id name2 v2 = Except.error DBError.duplicateIdentity ∧
    get_user_embedding db' user_id = some v := by
  obtain ⟨hv, hany, hdb⟩ := add_user_ok h
  subst hdb
  constructor
  · unfold add_user
    rw [if_neg (by simpa using hv2), if_pos (by simp [List.any_append])]
  · exact get_after_add hany

/-- C3: adding the same `user_id` twice makes the second `add_user` call fail
with `sqlite3.IntegrityError` (the duplicate-identity error) while the store
keeps the first call's row: `get_user_embedding` still returns the first
vector. -/
theorem add_user_duplicate_second_call_fails
    (db : DB) (user_id name name2 : String) (v v2 : List ℚ) (db' : DB)
    (hv2 : v2 ≠ [])
    (h : add_user db user_id name v = Except.ok db') :
    add_user db' user_id name2 v2 = Except.error DBError.duplicateIdentity ∧
    get_user_embedding db' user_id = some v :=
  add_user_second_same_id name2 hv2 h

/-- Witness for C3 at a concrete store. -/
theorem add_user_duplicate_second_call_fails_witness :
    add_user ⟨[("u1", "Alice", [1, 2])]⟩ "u1" "Bob" [3] =
        Except.error DBError.duplicateIdentity ∧
    get_user_embedding ⟨[("u1", "Alice", [1, 2])]⟩ "u1" = some [1, 2] :=
  add_user_duplicate_second_call_fails ⟨[]⟩ "u1" "Alice" "Bob" [1, 2] [3]
    ⟨[("u1", "Alice", [1, 2])]⟩ (by decide) (by rfl)

/-- C4: `add_user` with an empty vector fails with `ValueError` (the
invalid-vector error); the check precedes any database connection, and the
failed call leaves the store unchanged (no new state is produced). -/
theorem add_user_empty_vector_rejected (db : DB) (user_id name : String) :
    add_user db user_id name [] = Except.error DBError.invalidVector := by
  simp [add_user]

/-- C5: a vector stored by `add_user` is read back by `get_user_embedding`
exactly, hence componentwise within `1e-9` absolute error. -/
theorem add_get_round_trip
    (db : DB) (user_id name : String) (v : List ℚ) (db' : DB)
    (h : add_user db user_id name v = Except.ok db') :
    ∃ w, get_user_embedding db' user_id = some w ∧ w.length = v.length ∧
      ∀ i : Nat, |w.getD i 0 - v.getD i 0| ≤ 1 / 1000000000 := by
  obtain ⟨hv, hany, hdb⟩ := add_user_ok h
  subst hdb
  exact ⟨v, get_after_add hany, rfl, fun i => by norm_num⟩

/-- Witness for C5 on the spec's example vector. -/
theorem add_get_round_trip_witness :
    ∃ w, get_user_embedding
        ⟨[("u1", "Alice",
           [123456789 / 1000000000, -987654321 / 1000000000, 0])]⟩ "u1" =
        some w ∧
      w.length =
        ([123456789 / 1000000000, -987654321 / 1000000000, 0] :
          List ℚ).length ∧
      ∀ i : Nat,
        |w.getD i 0 -
            ([123456789 / 1000000000, -987654321 / 1000000000, 0] :
              List ℚ).getD i 0| ≤ 1 / 1000000000 :=
  add_get_round_trip ⟨[]⟩ "u1" "Alice"
    [123456789 / 1000000000, -987654321 / 1000000000, 0]
    ⟨[("u1", "Alice", [123456789 / 1000000000, -987654321 / 1000000000, 0])]⟩
    (by rfl)

/-! ### Camera lemmas and claims C6–C7 -/

/-- C6 (counterexample): a connected camera whose `cap.read()` fails while
`cap.isOpened()` still reports `True` keeps `is_connected = true` — the code
sets the flag to `self.cap.isOpened()`, not to `False`, so a failed read does
not always update the connected flag to false. -/
theorem read_frame_fail_keeps_connected_counterexample :
    (connect true).is_connected = true ∧
    (read_frame (connect true) (ReadOutcome.fail true)).1 = (false, none) ∧
    (read_frame (connect true) (ReadOutcome.fail true)).2.is_connected =
      true := by
  decide

/-- C6 (amended): when not connected (or the handle is gone), `read_frame`
returns `(False, None)` without raising and without touching the state; when
connected, a successful read returns the frame, an exception yields
`(False, None)` with the state unchanged, and a failed read yields
`(False, None)` with `is_connected` set to whatever `cap.isOpened()` then
reports — `false` exactly when the handle reports closed. -/
theorem read_frame_behaviour (c : CameraCapture) (o : ReadOutcome) :
    (c.is_connected = false ∨ c.cap = none → read_frame c o = ((false, none), c)) ∧
    (c.is_connected = true → c.cap ≠ none →
      (∀ b, read_frame c (ReadOutcome.fail b) =
          ((false, none), { c with is_connected := b })) ∧
      read_frame c ReadOutcome.exn = ((false, none), c) ∧
      ∀ f, read_frame c (ReadOutcome.ok f) = ((true, some f), c)) := by
  constructor
  · intro hc
    unfold read_frame
    rw [if_pos hc]
  · intro h1 h2
    have hneg : ¬(c.is_connected = false ∨ c.cap = none) := by
      simp [h1, h2]
    refine ⟨fun b => ?_, ?_, fun f => ?_⟩ <;>
      · unfold read_frame
        rw [if_neg hneg]

/-- Witness for C6 (amended) at concrete camera states. -/
theorem read_frame_behaviour_witness :
    read_frame (connect false) (ReadOutcome.ok 5) =
        ((false, none), connect false) ∧
    read_frame (connect true) (ReadOutcome.fail false) =
        ((false, none), { connect true with is_connected := false }) ∧
    read_frame (connect true) ReadOutcome.exn = ((false, none), connect true) :=
  ⟨(read_frame_behaviour (connect false) (ReadOutcome.ok 5)).1 (by decide),
   ((read_frame_behaviour (connect true) (ReadOutcome.fail false)).2
      (by decide) (by decide)).1 false,
   ((read_frame_behaviour (connect true) ReadOutcome.exn).2
      (by decide) (by decide)).2.1⟩

/-- C7: `release` is idempotent — a second call changes nothing — and on
every state reachable through the `CameraCapture` lifecycle (where a cleared
handle implies a cleared flag, an invariant preserved by `connect`,
`read_frame` and `release`) both the first and the second call leave
`is_connected = false`; calling it on a never-connected camera is safe. -/
theorem release_idempotent :
    (∀ c : CameraCapture, release (release c) = release c) ∧
    (∀ c : CameraCapture, CamInv c →
      (release c).is_connected = false ∧
      (release (release c)).is_connected = false) ∧
    (∀ b : Bool, CamInv (connect b)) ∧
    (∀ (c : CameraCapture) (o : ReadOutcome), CamInv c →
      CamInv (read_frame c o).2) ∧
    (∀ c : CameraCapture, CamInv c → CamInv (release c)) := by
  have hrel : ∀ c : CameraCapture, CamInv c → (release c).is_connected = false := by
    intro c h
    unfold release
    match hc : c.cap with
    | some _ => rfl
    | none => exact h hc
  have hinvrel : ∀ c : CameraCapture, CamInv c → CamInv (release c) := by
    intro c h
    unfold release
    match hc : c.cap with
    | some _ => intro _; rfl
    | none => exact h
  refine ⟨?_, fun c h => ⟨hrel c h, hrel _ (hinvrel c h)⟩, ?_, ?_, hinvrel⟩
  · intro c
    unfold release
    match hc : c.cap with
    | some _ => rfl
    | none => rw [hc]
  · intro b
    cases b <;> simp [connect, CamInv]
  · intro c o h
    unfold read_frame
    by_cases hc : c.is_connected = false ∨ c.cap = none
    · rw [if_pos hc]; exact h
    · rw [if_neg hc]
      push_neg at hc
      cases o with
      | ok f => exact h
      | fail b =>
        intro hcap
        exact absurd hcap hc.2
      | exn => exact h

/-- Witness for C7: double release of a freshly connected camera. -/
theorem release_idempotent_witness :
    release (release (connect true)) = release (connect true) ∧
    (release (connect true)).is_connected = false ∧
    (release (release (connect true))).is_connected = false :=
  ⟨release_idempotent.1 (connect true),
   (release_idempotent.2.1 (connect true) (by decide)).1,
   (release_idempotent.2.1 (connect true) (by decide)).2⟩

/-! ### Enrollment claims C8 and C10 -/

/-- C8: when the captured enrollment frame contains zero detected faces the
workflow aborts with the no-face-detected reason, and with more than one face
it aborts with the ambiguous-face-count reason; in both cases no store write
occurs, so the row count is unchanged. -/
theorem enrollment_face_count_aborts
    (rawName : String) (extraction : Option (List ℚ)) (db : DB) (faces : Nat)
    (hname : py_strip rawName ≠ "") :
    (faces = 0 →
      register_new_user rawName true true true faces extraction db =
        (RegOutcome.noFaceDetected, db)) ∧
    (2 ≤ faces →
      register_new_user rawName true true true faces extraction db =
        (RegOutcome.ambiguousFaceCount, db)) ∧
    (faces = 0 ∨ 2 ≤ faces →
      (register_new_user rawName true true true faces
          extraction db).2.rows.length = db.rows.length) := by
  refine ⟨fun hf => ?_, fun hf => ?_, fun hf => ?_⟩
  · subst hf
    simp [register_new_user, hname]
  · have h1 : faces ≠ 1 := by omega
    have h0 : faces ≠ 0 := by omega
    simp [register_new_user, hname, h1, h0]
  · rcases hf with hf | hf
    · subst hf
      simp [register_new_user, hname]
    · have h1 : faces ≠ 1 := by omega
      have h0 : faces ≠ 0 := by omega
      simp [register_new_user, hname, h1, h0]

/-- Witness for C8 with a zero-face and a two-face frame. -/
theorem enrollment_face_count_aborts_witness :
    register_new_user "Alice" true true true 0 (some [1]) ⟨[]⟩ =
        (RegOutcome.noFaceDetected, ⟨[]⟩) ∧
    register_new_user "Alice" true true true 2 (some [1]) ⟨[]⟩ =
        (RegOutcome.ambiguousFaceCount, ⟨[]⟩) :=
  ⟨(enrollment_face_count_aborts "Alice" (some [1]) ⟨[]⟩ 0 (by decide)).1 rfl,
   (enrollment_face_count_aborts "Alice" (some [1]) ⟨[]⟩ 2
      (by decide)).2.1 (by norm_num)⟩

/-- C10: the enrollment workflow derives the identity id deterministically by
replacing spaces with underscores and lowercasing the (stripped) display
name; display names that differ only in letter case, or only in a space
versus an underscore, collide on the same id, so enrolling the second such
name fails with the duplicate-identity error. -/
theorem enrollment_id_derivation :
    (∀ (rawName : String) (c r m : Bool) (faces : Nat)
        (ext : Option (List ℚ)) (db db' : DB) (uid : String),
      register_new_user rawName c r m faces ext db =
        (RegOutcome.registered uid, db') →
      uid = derive_user_id (py_strip rawName)) ∧
    (∀ (n1 n2 : String) (v1 v2 : List ℚ) (db db' : DB),
      register_new_user n1 true true true 1 (some v1) db =
        (RegOutcome.registered (derive_user_id (py_strip n1)), db') →
      derive_user_id (py_strip n2) = derive_user_id (py_strip n1) →
      py_strip n2 ≠ "" → v2 ≠ [] →
      register_new_user n2 true true true 1 (some v2) db' =
        (RegOutcome.duplicateIdentity, db')) ∧
    derive_user_id "John Smith" = derive_user_id "John_Smith" ∧
    derive_user_id "Alice" = derive_user_id "ALICE" ∧
    "John Smith" ≠ ("John_Smith" : String) ∧
    "Alice" ≠ ("ALICE" : String) := by
  refine ⟨?_, ?_, by decide, by decide, by decide, by decide⟩
  · intro rawName c r m faces ext db db' uid h
    by_cases hname : py_strip rawName = ""
    · simp [register_new_user, hname] at h
    · by_cases hc : c = false
      · simp [register_new_user, hname, hc] at h
      · by_cases hr : r = false
        · simp [register_new_user, hname, hc, hr] at h
        · by_cases hm : m = false
          · simp [register_new_user, hname, hc, hr, hm] at h
          · by_cases hf1 : faces = 1
            · cases ext with
              | none => simp [register_new_user, hname, hc, hr, hm, hf1] at h
              | some emb =>
                cases hau : add_user db (derive_user_id (py_strip rawName))
                    (py_strip rawName) emb with
                | ok db2 =>
                  simp [register_new_user, hname, hc, hr, hm, hf1, hau] at h
                  exact h.1.symm
                | error e =>
                  cases e <;>
                    simp [register_new_user, hname, hc, hr, hm, hf1, hau] at h
            · by_cases hf0 : faces = 0 <;>
                simp [register_new_user, hname, hc, hr, hm, hf1, hf0] at h
  · intro n1 n2 v1 v2 db db' h hn hn2 hv2
    by_cases hname : py_strip n1 = ""
    · simp [register_new_user, hname] at h
    · cases hau : add_user db (derive_user_id (py_strip n1))
          (py_strip n1) v1 with
      | ok db2 =>
        simp [register_new_user, hname, hau] at h
        have hdb' : db' = db2 := h.symm
        subst hdb'
        have hdup := (add_user_second_same_id (py_strip n2) hv2 hau).1
        simp [register_new_user, hn2, hn, hdup]
      | error e =>
        cases e <;> simp [register_new_user, hname, hau] at h

/-- Witness for C10: enrolling `"Alice"` and then `"ALICE"`. -/
theorem enrollment_id_derivation_witness :
    register_new_user "ALICE" true true true 1 (some [2])
        ⟨[("alice", "Alice", [1])]⟩ =
      (RegOutcome.duplicateIdentity, ⟨[("alice", "Alice", [1])]⟩) :=
  enrollment_id_derivation.2.1 "Alice" "ALICE" [1] [2] ⟨[]⟩
    ⟨[("alice", "Alice", [1])]⟩ (by rfl) (by decide) (by decide) (by decide)

/-! ### Matcher lemmas: the scan computes the scan-order-first minimum -/

/-- Combining two intermediate scan results: the right one wins only when its
distance is strictly smaller, so on a tie the left (earlier) one survives. -/
noncomputable def merge :
    Option (String × ℝ) → Option (String × ℝ) → Option (String × ℝ)
  | none, r => r
  | some b, none => some b
  | some b, some r => if r.2 < b.2 then some r else some b

theorem merge_none_left (r : Option (String × ℝ)) : merge none r = r := rfl

theorem merge_none_right (b : Option (String × ℝ)) : merge b none = b := by
  cases b <;> rfl

theorem merge_some_some (b r : String × ℝ) :
    merge (some b) (some r) = if r.2 < b.2 then some r else some b := rfl

theorem merge_assoc (a b c : Option (String × ℝ)) :
    merge (merge a b) c = merge a (merge b c) := by
  cases a with
  | none => rfl
  | some x =>
    cases b with
    | none => cases c <;> rfl
    | some y =>
      cases c with
      | none => rw [merge_none_right, merge_none_right]
      | some z =>
        by_cases h1 : y.2 < x.2 <;> by_cases h2 : z.2 < y.2 <;>
          by_cases h3 : z.2 < x.2 <;>
            simp [merge_some_some, h1, h2, h3] <;> first | rfl | linarith

theorem scanRows_cons_skip {p v : List ℚ} (user_id : String)
    (rest : List (String × List ℚ)) (b : Option (String × ℝ))
    (hz : norm p = 0 ∨ norm v = 0) :
    scanRows p ((user_id, v) :: rest) b = scanRows p rest b := by
  rw [scanRows, if_pos hz]

theorem scanRows_cons_none {p v : List ℚ} (user_id : String)
    (rest : List (String × List ℚ)) (hz : ¬(norm p = 0 ∨ norm v = 0)) :
    scanRows p ((user_id, v) :: rest) none =
      scanRows p rest (some (user_id, cosine_distance p v)) := by
  rw [scanRows, if_neg hz]

theorem scanRows_cons_some {p v : List ℚ} (user_id bid : String) (bd : ℝ)
    (rest : List (String × List ℚ)) (hz : ¬(norm p = 0 ∨ norm v = 0)) :
    scanRows p ((user_id, v) :: rest) (some (bid, bd)) =
      if cosine_distance p v < bd then
        scanRows p rest (some (user_id, cosine_distance p v))
      else scanRows p rest (some (bid, bd)) := by
  rw [scanRows, if_neg hz]

theorem scanRows_step {p v : List ℚ} (user_id : String)
    (rest : List (String × List ℚ)) (b : Option (String × ℝ))
    (hz : ¬(norm p = 0 ∨ norm v = 0)) :
    scanRows p ((user_id, v) :: rest) b =
      scanRows p rest (merge b (some (user_id, cosine_distance p v))) := by
  cases b with
  | none => rw [scanRows_cons_none user_id rest hz, merge_none_left]
  | some x =>
    obtain ⟨bid, bd⟩ := x
    rw [scanRows_cons_some user_id bid bd rest hz, merge_some_some]
    by_cases hlt : cosine_distance p v < bd
    · rw [if_pos hlt, if_pos hlt]
    · rw [if_neg hlt, if_neg hlt]

theorem scanRows_merge (p : List ℚ) (rows : List (String × List ℚ)) :
    ∀ b, scanRows p rows b = merge b (scanRows p rows none) := by
  induction rows with
  | nil => intro b; exact (merge_none_right b).symm
  | cons r rest ih =>
    intro b
    obtain ⟨user_id, v⟩ := r
    by_cases hz : norm p = 0 ∨ norm v = 0
    · rw [scanRows_cons_skip user_id rest b hz,
          scanRows_cons_skip user_id rest none hz]
      exact ih b
    · rw [scanRows_step user_id rest b hz,
          scanRows_step user_id rest none hz,
          ih (merge b (some (user_id, cosine_distance p v))),
          ih (merge none (some (user_id, cosine_distance p v))),
          merge_none_left]
      exact merge_assoc b (some (user_id, cosine_distance p v))
        (scanRows p rest none)

theorem firstMin_nil : firstMin [] = none := rfl

theorem firstMin_cons_none (x : String × ℝ) {rest : List (String × ℝ)}
    (h : firstMin rest = none) : firstMin (x :: rest) = some x := by
  rw [firstMin, h]

theorem firstMin_singleton (x : String × ℝ) : firstMin [x] = some x :=
  firstMin_cons_none x rfl

theorem firstMin_cons_some (x : String × ℝ) {rest : List (String × ℝ)}
    {y : String × ℝ} (h : firstMin rest = some y) :
    firstMin (x :: rest) = if x.2 ≤ y.2 then some x else some y := by
  rw [firstMin, h]

theorem scanRows_none_eq_firstMin (p : List ℚ)
    (rows : List (String × List ℚ)) :
    scanRows p rows none = firstMin (specCandidates p rows) := by
  induction rows with
  | nil => rfl
  | cons r rest ih =>
    obtain ⟨user_id, v⟩ := r
    by_cases hz : norm p = 0 ∨ norm v = 0
    · have hc : specCandidates p ((user_id, v) :: rest) =
          specCandidates p rest := by
        rw [specCandidates, if_neg (by tauto)]
      rw [hc, ← ih, scanRows_cons_skip user_id rest none hz]
    · have hc : specCandidates p ((user_id, v) :: rest) =
          (user_id, cosine_distance p v) :: specCandidates p rest := by
        rw [specCandidates, if_pos (by tauto)]
      rw [hc, scanRows_cons_none user_id rest hz, scanRows_merge, ih]
      cases hfm : firstMin (specCandidates p rest) with
      | none => rw [merge_none_right, firstMin_cons_none _ hfm]
      | some y =>
        rw [merge_some_some, firstMin_cons_some _ hfm]
        by_cases hle : cosine_distance p v ≤ y.2
        · rw [if_neg (by simpa using hle), if_pos hle]
        · rw [if_pos (by simpa using hle), if_neg hle]

theorem find_best_match_ok_eq (probe : List ℚ)
    (gallery : List (String × List ℚ)) (threshold : ℝ) :
    find_best_match probe (Except.ok gallery) threshold =
      specMatch probe gallery threshold := by
  show (match scanRows probe gallery none with
    | none => none
    | some (bid, bd) => if bd < threshold then some (bid, bd) else none) =
      specMatch probe gallery threshold
  rw [scanRows_none_eq_firstMin]
  rfl

theorem firstMin_mem {l : List (String × ℝ)} {x : String × ℝ}
    (h : firstMin l = some x) : x ∈ l := by
  induction l with
  | nil => exact absurd h (by rw [firstMin]; exact Option.noConfusion)
  | cons y rest ih =>
    cases hfm : firstMin rest with
    | none =>
      rw [firstMin_cons_none y hfm] at h
      rw [Option.some.inj h]
      exact List.mem_cons_self x rest
    | some z =>
      rw [firstMin_cons_some y hfm] at h
      split_ifs at h with hle
      · rw [Option.some.inj h]
        exact List.mem_cons_self x rest
      · exact List.mem_cons_of_mem y (ih (h ▸ hfm))

theorem specCandidates_mem {p : List ℚ} {gallery : List (String × List ℚ)}
    {x : String × ℝ} (h : x ∈ specCandidates p gallery) :
    ∃ v, (x.1, v) ∈ gallery ∧ norm v ≠ 0 ∧ norm p ≠ 0 ∧
      x.2 = cosine_distance p v := by
  induction gallery with
  | nil => simp [specCandidates] at h
  | cons e rest ih =>
    by_cases hz : norm p ≠ 0 ∧ norm e.2 ≠ 0
    · rw [specCandidates, if_pos hz] at h
      rcases List.mem_cons.mp h with h | h
      · exact ⟨e.2, by simp [h], hz.2, hz.1, by simp [h]⟩
      · obtain ⟨v, hv, hnv, hnp, hd⟩ := ih h
        exact ⟨v, List.mem_cons_of_mem e hv, hnv, hnp, hd⟩
    · rw [specCandidates, if_neg hz] at h
      obtain ⟨v, hv, hnv, hnp, hd⟩ := ih h
      exact ⟨v, List.mem_cons_of_mem e hv, hnv, hnp, hd⟩

theorem specCandidates_nil_of_all_skipped {p : List ℚ}
    {gallery : List (String × List ℚ)}
    (h : ∀ e ∈ gallery, norm p = 0 ∨ norm e.2 = 0) :
    specCandidates p gallery = [] := by
  induction gallery with
  | nil => rfl
  | cons e rest ih =>
    have he : ¬(norm p ≠ 0 ∧ norm e.2 ≠ 0) := by
      have := h e (List.mem_cons_self e rest)
      tauto
    rw [specCandidates, if_neg he]
    exact ih fun x hx => h x (List.mem_cons_of_mem e hx)

theorem specMatch_eq_none {p : List ℚ} {gallery : List (String × List ℚ)}
    (threshold : ℝ) (h : firstMin (specCandidates p gallery) = none) :
    specMatch p gallery threshold = none := by
  unfold specMatch
  rw [h]

theorem specMatch_eq_some {p : List ℚ} {gallery : List (String × List ℚ)}
    (threshold : ℝ) {bid : String} {bd : ℝ}
    (h : firstMin (specCandidates p gallery) = some (bid, bd)) :
    specMatch p gallery threshold =
      if bd < threshold then some (bid, bd) else none := by
  unfold specMatch
  rw [h]

theorem norm_eq_one {v : List ℚ} (h : dot v v = 1) : norm v = 1 := by
  unfold norm
  rw [h]
  push_cast
  exact Real.sqrt_one

theorem norm_eq_zero {v : List ℚ} (h : dot v v = 0) : norm v = 0 := by
  unfold norm
  rw [h]
  push_cast
  exact Real.sqrt_zero

theorem cosine_distance_eval {a b : List ℚ} {q : ℚ} (hd : dot a b = q)
    (ha : norm a = 1) (hb : norm b = 1) :
    cosine_distance a b = 1 - (q : ℝ) := by
  unfold cosine_distance
  rw [hd, ha, hb]
  norm_num

/-! ### Matcher claims C1, C2 and C9 -/

/-- C1: `find_best_match` coincides with the specified matcher — it returns
the scan-order-first minimum-cosine-distance gallery identity among
non-skipped entries, reported as a match exactly when that distance is
strictly below the threshold — and a nearest candidate whose distance equals
the threshold exactly is reported as no-match. -/
theorem find_best_match_correct :
    (∀ (probe : List ℚ) (gallery : List (String × List ℚ)) (threshold : ℝ),
      find_best_match probe (Except.ok gallery) threshold =
        specMatch probe gallery threshold) ∧
    (∀ (probe : List ℚ) (gallery : List (String × List ℚ)) (threshold : ℝ)
        (bid : String),
      firstMin (specCandidates probe gallery) = some (bid, threshold) →
      find_best_match probe (Except.ok gallery) threshold = none) := by
  refine ⟨find_best_match_ok_eq, ?_⟩
  intro probe gallery threshold bid h
  rw [find_best_match_ok_eq, specMatch_eq_some threshold h,
    if_neg (lt_irrefl threshold)]

/-- Witness for C1's threshold boundary: the single candidate is at cosine
distance exactly `1`, the threshold is `1`, and the result is no-match. -/
theorem find_best_match_correct_witness :
    find_best_match [1, 0] (Except.ok [("A", [0, 1])]) 1 = none := by
  have hp : norm [1, 0] = 1 := norm_eq_one (by norm_num [dot])
  have hv : norm [0, 1] = 1 := norm_eq_one (by norm_num [dot])
  have hd : cosine_distance [1, 0] [0, 1] = 1 := by
    have h := cosine_distance_eval (q := 0) (by norm_num [dot]) hp hv
    simpa using h
  have hcand : specCandidates [1, 0] [("A", [0, 1])] = [("A", (1 : ℝ))] := by
    simp [specCandidates, hp, hv, hd]
  exact find_best_match_correct.2 [1, 0] [("A", [0, 1])] 1 "A"
    (by rw [hcand, firstMin_singleton])

/-- C2: a zero-norm gallery entry (or every entry, when the probe has zero
norm) is skipped and never returned as the best candidate — any returned
candidate is a gallery entry with nonzero norm at its cosine distance; when
the gallery is empty or every entry is skipped the result is no-match with
the candidate absent; on the gallery `{A:[0,0,0], B:[1,0,0]}` with probe
`[1,0,0]` the result is `B` at distance `0`. -/
theorem find_best_match_zero_norm_safe :
    (∀ (probe : List ℚ) (gallery : List (String × List ℚ)) (threshold : ℝ)
        (bid : String) (bd : ℝ),
      find_best_match probe (Except.ok gallery) threshold = some (bid, bd) →
      ∃ v, (bid, v) ∈ gallery ∧ norm v ≠ 0 ∧ norm probe ≠ 0 ∧
        bd = cosine_distance probe v) ∧
    (∀ (probe : List ℚ) (gallery : List (String × List ℚ)) (threshold : ℝ),
      (∀ e ∈ gallery, norm probe = 0 ∨ norm e.2 = 0) →
      find_best_match probe (Except.ok gallery) threshold = none) ∧
    find_best_match [1, 0, 0]
        (Except.ok [("A", [0, 0, 0]), ("B", [1, 0, 0])]) (6 / 10) =
      some ("B", 0) := by
  refine ⟨?_, ?_, ?_⟩
  · intro probe gallery threshold bid bd h
    rw [find_best_match_ok_eq] at h
    cases hfm : firstMin (specCandidates probe gallery) with
    | none =>
      rw [specMatch_eq_none threshold hfm] at h
      exact absurd h (by simp)
    | some y =>
      obtain ⟨y1, y2⟩ := y
      rw [specMatch_eq_some threshold hfm] at h
      split_ifs at h with hlt
      simp only [Option.some.injEq, Prod.mk.injEq] at h
      obtain ⟨hb, hd2⟩ := h
      subst hb
      subst hd2
      obtain ⟨v, hv, hnv, hnp, hdist⟩ := specCandidates_mem (firstMin_mem hfm)
      exact ⟨v, hv, hnv, hnp, hdist⟩
  · intro probe gallery threshold hall
    rw [find_best_match_ok_eq,
      specMatch_eq_none threshold
        (by rw [specCandidates_nil_of_all_skipped hall, firstMin_nil])]
  · have hp : norm [1, 0, 0] = 1 := norm_eq_one (by norm_num [dot])
    have hA : norm [0, 0, 0] = 0 := norm_eq_zero (by norm_num [dot])
    have hd0 : cosine_distance [1, 0, 0] [1, 0, 0] = 0 := by
      have h := cosine_distance_eval (q := 1) (by norm_num [dot]) hp hp
      simpa using h
    have hcand : specCandidates [1, 0, 0]
        [("A", [0, 0, 0]), ("B", [1, 0, 0])] = [("B", (0 : ℝ))] := by
      simp [specCandidates, hp, hA, hd0]
    rw [find_best_match_ok_eq,
      specMatch_eq_some (6 / 10) (by rw [hcand, firstMin_singleton]),
      if_pos (by norm_num)]

/-- Witness for C2 at the spec's concrete gallery, plus an all-skipped
gallery (zero-norm probe). -/
theorem find_best_match_zero_norm_safe_witness :
    (∃ v, ("B", v) ∈ [("A", ([0, 0, 0] : List ℚ)), ("B", [1, 0, 0])] ∧
      norm v ≠ 0 ∧ norm [1, 0, 0] ≠ 0 ∧
      (0 : ℝ) = cosine_distance [1, 0, 0] v) ∧
    find_best_match [0, 0] (Except.ok [("A", [1, 1])]) (1 / 2) = none :=
  ⟨find_best_match_zero_norm_safe.1 [1, 0, 0]
      [("A", [0, 0, 0]), ("B", [1, 0, 0])] (6 / 10) "B" 0
      find_best_match_zero_norm_safe.2.2,
   find_best_match_zero_norm_safe.2.1 [0, 0] [("A", [1, 1])] (1 / 2)
      (fun e _ => Or.inl (norm_eq_zero (by norm_num [dot])))⟩

/-- C9 (counterexample): a `sqlite3.Error` raised while `find_best_match`
reads the gallery is caught inside the function and returned as
`(None, None)` — byte-identical to the return value of an ordinary no-match
against an empty gallery, so the persistence fault is not observable as a
distinct error by the caller. -/
theorem sql_error_indistinguishable_counterexample :
    find_best_match [1] (Except.error SqlError.err) (1 / 2) = none ∧
    find_best_match [1] (Except.ok []) (1 / 2) = none ∧
    find_best_match [1] (Except.error SqlError.err) (1 / 2) =
      find_best_match [1] (Except.ok []) (1 / 2) :=
  ⟨rfl, rfl, rfl⟩

/-- C9 (amended): a persistence fault during the gallery read is caught and
logged inside `find_best_match` and surfaced to the caller as `(None, None)`
— the same value as an ordinary no-match — rather than as a distinct
observable error. -/
theorem sql_error_returns_no_match (probe : List ℚ) (e : SqlError)
    (threshold : ℝ) :
    find_best_match probe (Except.error e) threshold = none ∧
    find_best_match probe (Except.ok []) threshold = none :=
  ⟨rfl, rfl⟩

end FaceAccess
